import Mathlib

/-!
Shallow embedding of `src/main.py` (wufang-bot): a LINE chat bot that, on a
trigger keyword, fetches Bitfinex funding rates for six instruments, renders
a table image, uploads it to Cloudinary and pushes it to the user.

Network effects are modelled by an `Env` record giving the outcome of each
upstream interaction, and the handlers are modelled as functions producing a
trace of externally visible actions.  Numeric rates are modelled as exact
rationals; Python `f"{x:.nf}"` formatting is modelled by fixed-point decimal
formatting with round-half-to-even.
-/

namespace WufangBot

/-- Externally visible actions performed by the bot, in the order the source
performs them.  Console `print` calls are logging, not messages, and are not
modelled. -/
inductive Action where
  | reply (replyToken msg : String)
  | fetchQuote (sym : String)
  | fetchIcon (url : String)
  | upload
  | pushImage (userId url : String)
  | pushText (userId msg : String)
  | respond (status : String)
deriving DecidableEq, Repr

/-- Outcome of decoding fetched icon bytes: the decoded image's dimensions
(`PIL.Image.open(...).convert("RGBA")`), or `none` when the request, decode
or timeout fails. -/
abbrev IconFetch := String → Option (Nat × Nat)

/-- Environment of one run: outcome of every upstream interaction.
`fetch sym` is the raw rate `resp[0][3]` parsed from the Bitfinex response
(`none` when the request fails, times out, or the payload is malformed —
the bare `except:` in the source treats all of these alike);
`iconFetch url` is the icon decode outcome; `renderError` is `some e` when
the matplotlib render/savefig step raises with message `e`;
`uploadResult` is Cloudinary's `secure_url` or the raised error message;
`pushImageError` is `some e` when the image push itself raises. -/
structure Env where
  fetch : String → Option ℚ
  iconFetch : IconFetch
  renderError : Option String
  uploadResult : Except String String
  pushImageError : Option String

/-- The static `symbols_info` table of `create_report_img`:
`(symbol, display name, icon url)`, in source declaration order. -/
def symbols_info : List (String × String × String) :=
  [ ("fUSD",  "USD",  "https://static.okx.com/cdn/oksupport/asset/currency/icon/usd.png"),
    ("fUST",  "USDT", "https://static.okx.com/cdn/oksupport/asset/currency/icon/usdt.png"),
    ("fXAUT", "XAUT", "https://static.okx.com/cdn/oksupport/asset/currency/icon/xaut.png"),
    ("fBTC",  "BTC",  "https://static.okx.com/cdn/oksupport/asset/currency/icon/btc.png"),
    ("fETH",  "ETH",  "https://static.okx.com/cdn/oksupport/asset/currency/icon/eth.png"),
    ("fEUR",  "EUR",  "https://static.okx.com/cdn/oksupport/asset/currency/icon/eur.png") ]

/-- Round a rational to the nearest integer, ties to even, as Python's
fixed-point `format` does. -/
def roundHalfEven (x : ℚ) : ℤ :=
  let f : ℤ := Int.floor x
  let frac : ℚ := x - f
  if frac < 1/2 then f
  else if 1/2 < frac then f + 1
  else if f % 2 = 0 then f else f + 1

/-- Left-pad a numeral string with zeros to the given length. -/
def padZeros (len : Nat) (s : String) : String :=
  String.mk (List.replicate (len - s.length) '0') ++ s

/-- Python `f"{q:.{dp}f}"`: fixed-point decimal with `dp` fractional digits. -/
def formatFixed (q : ℚ) (dp : Nat) : String :=
  let n : ℤ := roundHalfEven (q * (10 : ℚ) ^ dp)
  let sign : String := if n < 0 then "-" else ""
  let m : Nat := n.natAbs
  sign ++ toString (m / 10 ^ dp) ++ "." ++ padZeros dp (toString (m % 10 ^ dp))

/-- Python `f"{q:.{dp}f}%"`. -/
def formatPct (q : ℚ) (dp : Nat) : String := formatFixed q dp ++ "%"

/-- One row of the `results` list built by `create_report_img`. -/
structure Row where
  currency : String
  daily : String
  apr : String
  icon : String
deriving DecidableEq, Repr

/-- Body of one iteration of the `for sym, info in symbols_info.items()` loop:
on a successful fetch, `rate = float(resp[0][3]) * 100` and the row holds
`f"{rate:.4f}%"` and `f"{rate*365:.2f}%"`; on any exception the row holds the
`"N/A"` sentinels.  The instrument is appended in either case. -/
def makeRow (fetch : String → Option ℚ) (sym name icon : String) : Row :=
  match fetch sym with
  | some raw =>
      let rate : ℚ := raw * 100
      { currency := name, daily := formatPct rate 4, apr := formatPct (rate * 365) 2, icon := icon }
  | none =>
      { currency := name, daily := "N/A", apr := "N/A", icon := icon }

/-- The `results` list of `create_report_img`: one row per `symbols_info`
entry, in declaration order. -/
def aggregate (fetch : String → Option ℚ) : List Row :=
  symbols_info.map (fun p => makeRow fetch p.1 p.2.1 p.2.2)

/-- An icon raster as `get_icon` returns it: its size in pixels, and whether
it is the fetched image resized from its original dimensions or the flat
RGBA placeholder. -/
inductive IconImage where
  | fetched (size : Nat × Nat) (orig : Nat × Nat)
  | placeholder (size : Nat × Nat) (rgba : Nat × Nat × Nat × Nat)
deriving DecidableEq, Repr

/-- Size of an `IconImage` raster. -/
def IconImage.size : IconImage → Nat × Nat
  | .fetched s _ => s
  | .placeholder s _ => s

set_option linter.unusedVariables false in
/-- The `get_icon` helper: download and decode the icon, resize it to `size`
with Lanczos; on any exception return `Image.new('RGBA', size, (200, 200, 200, 60))`.
The `name` argument is used by the source only for console logging. -/
def get_icon (iconFetch : IconFetch) (name url : String)
    (size : Nat × Nat := (120, 120)) : IconImage :=
  match iconFetch url with
  | some orig => .fetched size orig
  | none => .placeholder size (200, 200, 200, 60)

/-- The literal acknowledgement text sent with the reply token. -/
def ackText : String := "📊 正在抓取數據並生成報表，請稍候約 3-5 秒..."

/-- The failure text `f"❌ 報表處理失敗: {str(e)}"` pushed on an exception. -/
def errorText (e : String) : String := "❌ 報表處理失敗: " ++ e

/-- The fixed trigger keyword of the `if "利率" in user_msg` check. -/
def triggerKeyword : String := "利率"

/-- Leading- and trailing-whitespace removal on a character list. -/
def stripChars (l : List Char) : List Char :=
  ((l.dropWhile Char.isWhitespace).reverse.dropWhile Char.isWhitespace).reverse

/-- Python `str.strip()`: remove leading and trailing whitespace. -/
def pyStrip (s : String) : String := String.mk (stripChars s.toList)

/-- Containment of `pat` as a contiguous run in a character list, as Python's
`in` operator on strings decides it. -/
def containsAux (pat : List Char) : List Char → Bool
  | [] => pat.isEmpty
  | c :: rest => pat.isPrefixOf (c :: rest) || containsAux pat rest

/-- Python `triggerKeyword in s`: case-sensitive substring containment. -/
def containsKeyword (s : String) : Bool := containsAux triggerKeyword.toList s.toList

/-- Network actions of the `results` loop of `create_report_img`: one quote
request per `symbols_info` entry, in declaration order, performed whether or
not it succeeds. -/
def quoteActions : List Action := symbols_info.map (fun p => Action.fetchQuote p.1)

/-- Network actions of the icon loop of `create_report_img`: one icon request
per dataframe row (`get_icon(row['Currency'], row['icon'])`). -/
def iconActions (fetch : String → Option ℚ) : List Action :=
  (aggregate fetch).map (fun r => Action.fetchIcon r.icon)

/-- Trace of `create_report_img`: the quote loop runs first, then (after the
table is drawn) the icon loop; the `savefig` call, whose failure
`Env.renderError` models, comes after both. -/
def reportTrace (env : Env) : List Action := quoteActions ++ iconActions env.fetch

/-- Result of `create_report_img`: the saved path, unless the render step
raises. -/
def reportResult (env : Env) : Except String String :=
  match env.renderError with
  | some e => Except.error e
  | none => Except.ok "line_report.png"

/-- The `handle_message` handler as a trace of actions.  The message text is
stripped; a message containing the trigger keyword causes the immediate
`reply_message` with the reply token, then the report pipeline inside
`try:`: render, Cloudinary upload, image push to `user_id`; any exception
reaches the single `except` clause, which pushes the failure text to
`user_id`.  A non-matching message produces no action at all. -/
def handle_message (env : Env) (userMsg userId replyToken : String) : List Action :=
  let msg := pyStrip userMsg
  if containsKeyword msg then
    Action.reply replyToken ackText ::
    (reportTrace env ++
      match reportResult env with
      | Except.error e => [Action.pushText userId (errorText e)]
      | Except.ok _ =>
        Action.upload ::
        match env.uploadResult with
        | Except.error e => [Action.pushText userId (errorText e)]
        | Except.ok url =>
          Action.pushImage userId url ::
          match env.pushImageError with
          | some e => [Action.pushText userId (errorText e)]
          | none => [])
  else []

/-- The Flask `/callback` route: `handler.handle(body, signature)` runs to
completion — dispatching `handle_message` inline — before `'OK'` is returned;
an invalid signature aborts with 400 before any handler runs. -/
def callback (env : Env) (sigValid : Bool) (userMsg userId replyToken : String) :
    List Action :=
  if sigValid then
    handle_message env userMsg userId replyToken ++ [Action.respond "OK"]
  else
    [Action.respond "400"]

/-- Everything `create_report_img` feeds the drawing engine: figure and table
parameters are literal constants of the source; cell text and icons derive
from the quote and icon responses; icon anchor `i` sits at
`(0.28, 0.745 - i*0.117)` with zoom `0.22`. -/
structure Artifact where
  figsize : Nat × Nat
  dpi : Nat
  colLabels : List String
  cellText : List (String × String × String)
  colColours : List String
  fontsize : Nat
  scale : ℚ × ℚ
  headerTextColor : String
  icons : List IconImage
  iconZoom : ℚ
  iconPositions : List (ℚ × ℚ)
  facecolor : String
deriving DecidableEq, Repr

/-- The artifact composed by `create_report_img`, as a function of the quote
and icon responses only: no clock, counter or randomness enters it. -/
def render (env : Env) : Artifact :=
  let df := aggregate env.fetch
  { figsize := (10, 7)
    dpi := 120
    colLabels := ["Currency", "Daily", "APR"]
    cellText := df.map (fun r => (r.currency, r.daily, r.apr))
    colColours := List.replicate 3 "#1a1a1a"
    fontsize := 14
    scale := (1, 4.2)
    headerTextColor := "white"
    icons := df.map (fun r => get_icon env.iconFetch r.currency r.icon)
    iconZoom := 0.22
    iconPositions := (List.range df.length).map (fun i => (0.28, 0.745 - (i : ℚ) * 0.117))
    facecolor := "white" }

/-! ## Sample environments for concrete runs -/

/-- Run in which every upstream interaction succeeds. -/
def envOk : Env where
  fetch := fun _ => some (1/10000)
  iconFetch := fun _ => some (64, 64)
  renderError := none
  uploadResult := Except.ok "https://img"
  pushImageError := none

/-- Run in which the render/savefig step raises. -/
def envRenderFail : Env where
  fetch := fun _ => some (1/10000)
  iconFetch := fun _ => some (64, 64)
  renderError := some "disk full"
  uploadResult := Except.ok "https://img"
  pushImageError := none

/-- Run in which the Cloudinary upload raises. -/
def envUploadFail : Env where
  fetch := fun _ => some (1/10000)
  iconFetch := fun _ => some (64, 64)
  renderError := none
  uploadResult := Except.error "upload timed out"
  pushImageError := none

/-- Run in which rendering and upload succeed but the image push raises. -/
def envPushFail : Env where
  fetch := fun _ => some (1/10000)
  iconFetch := fun _ => some (64, 64)
  renderError := none
  uploadResult := Except.ok "https://img"
  pushImageError := some "push failed"

/-! ## Helper lemmas -/

theorem makeRow_currency (f : String → Option ℚ) (s n i : String) :
    (makeRow f s n i).currency = n := by
  cases h : f s <;> simp [makeRow, h]

theorem makeRow_icon (f : String → Option ℚ) (s n i : String) :
    (makeRow f s n i).icon = i := by
  cases h : f s <;> simp [makeRow, h]

theorem makeRow_daily_apr (f : String → Option ℚ) (s n i : String) :
    ((makeRow f s n i).daily, (makeRow f s n i).apr) =
      match f s with
      | some raw => (formatPct (raw * 100) 4, formatPct (raw * 100 * 365) 2)
      | none => ("N/A", "N/A") := by
  cases h : f s <;> simp [makeRow, h]

/-! ## Claims -/

/-- C1.  For every aggregation run, whatever the per-instrument fetch
outcomes, the row-set handed to the renderer has exactly one row per
`symbols_info` entry (6 rows), in declared order, never reordered or
dropped; the aggregation is total (each loop iteration catches its own
exception with a bare `except:` and still appends a row). -/
theorem aggregate_rowset_complete_ordered (env : Env) :
    (render env).cellText.map Prod.fst = ["USD", "USDT", "XAUT", "BTC", "ETH", "EUR"]
    ∧ (render env).cellText.length = 6
    ∧ (aggregate env.fetch).map Row.currency = ["USD", "USDT", "XAUT", "BTC", "ETH", "EUR"]
    ∧ (aggregate env.fetch).length = symbols_info.length := by
  refine ⟨?_, ?_, ?_, ?_⟩ <;>
    simp [render, aggregate, symbols_info, makeRow_currency]

/-- C2.  In every row, the APR cell is exactly the daily percentage value
times 365, formatted to 2 decimal places (the daily cell itself to 4);
when the daily rate is unavailable both cells are the `"N/A"` sentinel —
the APR is never computed from anything but the same fetched rate. -/
theorem apr_derived_from_daily (fetch : String → Option ℚ) :
    (aggregate fetch).map (fun r => (r.daily, r.apr)) =
      symbols_info.map (fun p =>
        match fetch p.1 with
        | some raw => (formatPct (raw * 100) 4, formatPct (raw * 100 * 365) 2)
        | none => ("N/A", "N/A")) := by
  unfold aggregate
  rw [List.map_map]
  exact List.map_congr_left fun p _ => makeRow_daily_apr fetch p.1 p.2.1 p.2.2

/-- C6.  The icon resolver is total: on fetch/decode failure it returns the
flat-gray, partially transparent RGBA placeholder `(200, 200, 200, 60)` of
exactly the requested dimensions, and on success the fetched image resized
to those same dimensions; the result always has the requested size. -/
theorem get_icon_never_fails_fixed_size (f : IconFetch) (name url : String)
    (size : Nat × Nat) :
    (get_icon f name url size).size = size
    ∧ (f url = none →
        get_icon f name url size = IconImage.placeholder size (200, 200, 200, 60))
    ∧ (∀ d, f url = some d →
        get_icon f name url size = IconImage.fetched size d) := by
  refine ⟨?_, ?_, ?_⟩
  · cases h : f url <;> simp [get_icon, h, IconImage.size]
  · intro h; simp [get_icon, h]
  · intro d h; simp [get_icon, h]

/-- Witness for C6 at concrete inputs: a failing fetch yields the
placeholder at the requested size, a succeeding one the resized image. -/
theorem get_icon_never_fails_witness :
    (get_icon (fun _ => none) "USD" "http://u" (120, 120)).size = (120, 120)
    ∧ get_icon (fun _ => none) "USD" "http://u" (120, 120) =
        IconImage.placeholder (120, 120) (200, 200, 200, 60)
    ∧ get_icon (fun _ => some (33, 44)) "USD" "http://u" (120, 120) =
        IconImage.fetched (120, 120) (33, 44) :=
  ⟨(get_icon_never_fails_fixed_size (fun _ => none) "USD" "http://u" (120, 120)).1,
   (get_icon_never_fails_fixed_size (fun _ => none) "USD" "http://u" (120, 120)).2.1 rfl,
   (get_icon_never_fails_fixed_size (fun _ => some (33, 44)) "USD" "http://u" (120, 120)).2.2
     (33, 44) rfl⟩

/-- C8.  A raw source value of `0.0001` yields the displayed daily string
`"0.0100%"` and APR string `"3.65%"` in every row (the raw rate is scaled
by 100 and formatted to 4 and 2 decimal places respectively). -/
theorem raw_rate_00001_formats :
    (aggregate (fun _ => some (1/10000))).map (fun r => (r.daily, r.apr)) =
      List.replicate 6 ("0.0100%", "3.65%") := by
  with_unfolding_all decide

/-- C9.  The composed artifact is a function of the quote responses and icon
responses alone: two runs with identical upstream responses produce
identical artifacts — no randomness or wall-clock data enters the
rendering. -/
theorem render_artifact_deterministic (e₁ e₂ : Env)
    (hq : e₁.fetch = e₂.fetch) (hi : e₁.iconFetch = e₂.iconFetch) :
    render e₁ = render e₂ := by
  unfold render
  rw [hq, hi]

/-- Witness for C9: two runs that differ in publisher and push outcomes but
share upstream responses produce the same artifact. -/
theorem render_artifact_deterministic_witness :
    render envOk = render envPushFail :=
  render_artifact_deterministic envOk envPushFail rfl rfl

/-- Actions a run may legitimately perform after the acknowledgement: never
another use of the reply token, and every message push addressed to the
sender's user id. -/
def addressedOk (userId : String) : Action → Bool
  | .reply _ _ => false
  | .pushText u _ => u == userId
  | .pushImage u _ => u == userId
  | _ => true

/-- Test for a pushed text message. -/
def isPushText : Action → Bool
  | .pushText _ _ => true
  | _ => false

/-- Test for a pushed image message. -/
def isPushImage : Action → Bool
  | .pushImage _ _ => true
  | _ => false

/-- Exception reaching the handler's `except` clause from the pipeline
proper (render step or Cloudinary upload), if any. -/
def pipelineError (env : Env) : Option String :=
  match env.renderError with
  | some e => some e
  | none =>
    match env.uploadResult with
    | Except.error e => some e
    | Except.ok _ => none

theorem countP_quoteActions (p : Action → Bool)
    (h : ∀ s, p (Action.fetchQuote s) = false) : quoteActions.countP p = 0 := by
  simp [quoteActions, List.countP_map, symbols_info, List.countP_cons, h]

theorem countP_iconActions (p : Action → Bool) (f : String → Option ℚ)
    (h : ∀ u, p (Action.fetchIcon u) = false) : (iconActions f).countP p = 0 := by
  rw [iconActions, List.countP_map]
  exact List.countP_eq_zero.mpr (fun r _ => by simp [Function.comp, h])

theorem countP_reportTrace (p : Action → Bool) (env : Env)
    (hq : ∀ s, p (Action.fetchQuote s) = false)
    (hi : ∀ u, p (Action.fetchIcon u) = false) : (reportTrace env).countP p = 0 := by
  rw [reportTrace, List.countP_append,
    countP_quoteActions p hq, countP_iconActions p env.fetch hi]

theorem all_reportTrace (p : Action → Bool) (env : Env)
    (hq : ∀ s, p (Action.fetchQuote s) = true)
    (hi : ∀ u, p (Action.fetchIcon u) = true) : (reportTrace env).all p = true := by
  simp only [reportTrace, quoteActions, iconActions, List.all_append]
  refine Bool.and_eq_true_iff.mpr ⟨?_, ?_⟩
  · exact List.all_eq_true.mpr fun a ha => by
      obtain ⟨q, _, rfl⟩ := List.mem_map.mp ha
      exact hq q.1
  · exact List.all_eq_true.mpr fun a ha => by
      obtain ⟨r, _, rfl⟩ := List.mem_map.mp ha
      exact hi r.icon

/-- C3.  In every triggered run the acknowledgement, addressed with the
single-use reply token, is the first action of the run — so it precedes
every network call (quote fetch, icon fetch, upload) — and everything after
it never uses the reply token again: all later messages are pushed to the
sender's user id. -/
theorem ack_precedes_network_and_pushes_to_user (env : Env)
    (msg userId replyToken : String)
    (h : containsKeyword (pyStrip msg) = true) :
    (handle_message env msg userId replyToken).head? =
      some (Action.reply replyToken ackText)
    ∧ (handle_message env msg userId replyToken).tail.all (addressedOk userId) = true := by
  simp only [handle_message, h, if_true]
  refine ⟨rfl, ?_⟩
  simp only [List.tail_cons, List.all_append]
  refine Bool.and_eq_true_iff.mpr ⟨all_reportTrace _ env (fun _ => rfl) (fun _ => rfl), ?_⟩
  rcases hre : env.renderError with _ | e <;>
    rcases hup : env.uploadResult with e' | url <;>
      rcases hpi : env.pushImageError with _ | e'' <;>
        simp [reportResult, hre, hup, hpi, addressedOk]

/-- Witness for C3: the trigger message `"今日利率?"` on a successful run. -/
theorem ack_precedes_network_witness :
    containsKeyword (pyStrip "今日利率?") = true
    ∧ ((handle_message envOk "今日利率?" "U1" "T1").head? =
        some (Action.reply "T1" ackText)
      ∧ (handle_message envOk "今日利率?" "U1" "T1").tail.all (addressedOk "U1") = true) :=
  ⟨by decide,
   ack_precedes_network_and_pushes_to_user envOk "今日利率?" "U1" "T1" (by decide)⟩

/-- C4.  In every triggered run in which the pipeline raises — the render
step or the publisher; the aggregation itself cannot raise — the trace
contains exactly one pushed text message, no pushed image, and that failure
text, addressed to the sender's user id with the exception's string form,
is the final action of the run (no retry follows). -/
theorem pipeline_failure_single_report (env : Env)
    (msg userId replyToken e : String)
    (h : containsKeyword (pyStrip msg) = true)
    (he : pipelineError env = some e) :
    (handle_message env msg userId replyToken).countP isPushText = 1
    ∧ (handle_message env msg userId replyToken).countP isPushImage = 0
    ∧ (handle_message env msg userId replyToken).getLast? =
        some (Action.pushText userId (errorText e)) := by
  simp only [handle_message, h, if_true]
  have hrt := countP_reportTrace isPushText env (fun _ => rfl) (fun _ => rfl)
  have hri := countP_reportTrace isPushImage env (fun _ => rfl) (fun _ => rfl)
  rcases hre : env.renderError with _ | e' <;>
    rcases hup : env.uploadResult with e'' | url
  · rw [pipelineError, hre, hup] at he
    cases he
    refine ⟨?_, ?_, ?_⟩
    · simp [reportResult, hre, hup, List.countP_cons, hrt, isPushText]
    · simp [reportResult, hre, hup, List.countP_cons, hri, isPushImage]
    · simp only [reportResult, hre, hup]
      rw [show Action.reply replyToken ackText ::
            (reportTrace env ++ [Action.upload, Action.pushText userId (errorText e)]) =
          (Action.reply replyToken ackText ::
            (reportTrace env ++ [Action.upload])) ++
            [Action.pushText userId (errorText e)] by simp]
      exact List.getLast?_concat _
  · rw [pipelineError, hre, hup] at he
    cases he
  · rw [pipelineError, hre] at he
    cases he
    refine ⟨?_, ?_, ?_⟩
    · simp [reportResult, hre, List.countP_cons, hrt, isPushText]
    · simp [reportResult, hre, List.countP_cons, hri, isPushImage]
    · simp only [reportResult, hre]
      rw [show Action.reply replyToken ackText ::
            (reportTrace env ++ [Action.pushText userId (errorText e)]) =
          (Action.reply replyToken ackText :: reportTrace env) ++
            [Action.pushText userId (errorText e)] by simp]
      exact List.getLast?_concat _
  · rw [pipelineError, hre] at he
    cases he
    refine ⟨?_, ?_, ?_⟩
    · simp [reportResult, hre, List.countP_cons, hrt, isPushText]
    · simp [reportResult, hre, List.countP_cons, hri, isPushImage]
    · simp only [reportResult, hre]
      rw [show Action.reply replyToken ackText ::
            (reportTrace env ++ [Action.pushText userId (errorText e)]) =
          (Action.reply replyToken ackText :: reportTrace env) ++
            [Action.pushText userId (errorText e)] by simp]
      exact List.getLast?_concat _

/-- Witness for C4: a run whose Cloudinary upload raises pushes exactly one
failure text and no image. -/
theorem pipeline_failure_single_report_witness :
    containsKeyword (pyStrip "今日利率?") = true
    ∧ pipelineError envUploadFail = some "upload timed out"
    ∧ ((handle_message envUploadFail "今日利率?" "U1" "T1").countP isPushText = 1
      ∧ (handle_message envUploadFail "今日利率?" "U1" "T1").countP isPushImage = 0
      ∧ (handle_message envUploadFail "今日利率?" "U1" "T1").getLast? =
          some (Action.pushText "U1" (errorText "upload timed out"))) :=
  ⟨by decide, rfl,
   pipeline_failure_single_report envUploadFail "今日利率?" "U1" "T1"
     "upload timed out" (by decide) rfl⟩

/-- C10.  The `try` block of the handler also spans the success-path image
push itself: when rendering and upload succeed but the push raises, the
handler still pushes the failure text (with the exception's string form) to
the user's id, after the image-push attempt and the completed upload. -/
theorem image_push_failure_reported (env : Env)
    (msg userId replyToken url e : String)
    (h : containsKeyword (pyStrip msg) = true)
    (hre : env.renderError = none)
    (hup : env.uploadResult = Except.ok url)
    (hpi : env.pushImageError = some e) :
    handle_message env msg userId replyToken =
      Action.reply replyToken ackText ::
        (reportTrace env ++
          [Action.upload, Action.pushImage userId url,
           Action.pushText userId (errorText e)]) := by
  simp [handle_message, h, reportResult, hre, hup, hpi]

/-- Witness for C10: a concrete run whose image push raises still reports
the failure text after publishing. -/
theorem image_push_failure_reported_witness :
    containsKeyword (pyStrip "今日利率?") = true
    ∧ handle_message envPushFail "今日利率?" "U1" "T1" =
        Action.reply "T1" ackText ::
          (reportTrace envPushFail ++
            [Action.upload, Action.pushImage "U1" "https://img",
             Action.pushText "U1" (errorText "push failed")]) :=
  ⟨by decide,
   image_push_failure_reported envPushFail "今日利率?" "U1" "T1"
     "https://img" "push failed" (by decide) rfl rfl rfl⟩

/-- C5 counterexample.  The claim that the webhook request is answered
before the slow pipeline executes is false: in a concrete fully successful
run the webhook response `'OK'` is the LAST event, and the image push (like
every network call of the pipeline) happens strictly before it, inside the
webhook-handling call path. -/
theorem pipeline_not_deferred_counterexample :
    (callback envOk true "今日利率?" "U1" "T1").getLast? = some (Action.respond "OK")
    ∧ Action.pushImage "U1" "https://img" ∈
        (callback envOk true "今日利率?" "U1" "T1").dropLast
    ∧ Action.fetchQuote "fUSD" ∈ (callback envOk true "今日利率?" "U1" "T1").dropLast
    ∧ (callback envOk true "今日利率?" "U1" "T1").head? ≠
        some (Action.respond "OK") := by
  with_unfolding_all decide

/-- C5 amended.  The slow pipeline runs inline inside the webhook handler:
on a signature-valid request every action of the run happens within the
webhook-handling call path, and the synchronous webhook response is
produced only after the whole pipeline has completed. -/
theorem pipeline_runs_inline_before_response (env : Env)
    (msg userId replyToken : String) :
    callback env true msg userId replyToken =
      handle_message env msg userId replyToken ++ [Action.respond "OK"]
    ∧ (callback env true msg userId replyToken).dropLast =
        handle_message env msg userId replyToken
    ∧ (callback env true msg userId replyToken).getLast? =
        some (Action.respond "OK") := by
  refine ⟨rfl, ?_, ?_⟩
  · simp [callback]
  · simp only [callback, if_true]
    exact List.getLast?_concat _

theorem containsAux_correct (pat : List Char) (l : List Char) :
    containsAux pat l = true ↔ pat <:+: l := by
  induction l with
  | nil => simp [containsAux, List.isEmpty_iff]
  | cons c t ih => simp [containsAux, ih, List.infix_cons_iff]

theorem infix_dropWhile_of_head_false (p : Char → Bool) (c : Char) (pat : List Char)
    (hc : p c = false) :
    ∀ l : List Char, (c :: pat) <:+: l → (c :: pat) <:+: l.dropWhile p := by
  intro l
  induction l with
  | nil => intro h; simp at h
  | cons a t ih =>
      intro h
      rw [List.dropWhile_cons]
      cases ha : p a with
      | false => simpa [ha] using h
      | true =>
          simp only [ha, if_true]
          apply ih
          rcases List.infix_cons_iff.mp h with hp | hi
          · obtain ⟨s, hs⟩ := hp
            rw [List.cons_append] at hs
            injection hs with h1 _
            rw [h1] at hc
            rw [hc] at ha
            exact Bool.noConfusion ha
          · exact hi

theorem stripChars_infix_self (l : List Char) : stripChars l <:+: l := by
  obtain ⟨u, hu⟩ := List.dropWhile_suffix (l := l) (p := Char.isWhitespace)
  obtain ⟨v, hv⟩ :=
    List.dropWhile_suffix (l := (l.dropWhile Char.isWhitespace).reverse)
      (p := Char.isWhitespace)
  have hy : l.dropWhile Char.isWhitespace =
      ((l.dropWhile Char.isWhitespace).reverse.dropWhile Char.isWhitespace).reverse
        ++ v.reverse := by
    have hrev := congrArg List.reverse hv
    simpa [List.reverse_append] using hrev.symm
  refine ⟨u, v.reverse, ?_⟩
  rw [stripChars, List.append_assoc, ← hy, hu]

theorem keyword_strip_iff (l : List Char) :
    triggerKeyword.toList <:+: stripChars l ↔ triggerKeyword.toList <:+: l := by
  have e1 : triggerKeyword.toList = '利' :: ['率'] := by decide
  constructor
  · intro h
    exact h.trans (stripChars_infix_self l)
  · intro h
    rw [e1] at h
    have h1 := infix_dropWhile_of_head_false Char.isWhitespace '利' ['率']
      (by decide) l h
    have h2 := List.reverse_infix.mpr h1
    rw [show ('利' :: ['率']).reverse = '率' :: ['利'] from by decide] at h2
    have h3 := infix_dropWhile_of_head_false Char.isWhitespace '率' ['利']
      (by decide) _ h2
    have h4 := List.reverse_infix.mpr h3
    rw [show ('率' :: ['利']).reverse = '利' :: ['率'] from by decide] at h4
    rw [e1]
    simpa [stripChars] using h4

/-- C7.  A run is triggered exactly when the inbound text contains the fixed
keyword `"利率"` as a case-sensitive contiguous substring (Python `in` on
the stripped text; stripping cannot create or destroy an occurrence of the
whitespace-free keyword): a non-containing message such as `"hello"`
produces no action of any kind, a containing one such as `"今日利率?"`
starts the run. -/
theorem trigger_substring_activation (env : Env) (userId replyToken msg : String) :
    (handle_message env msg userId replyToken ≠ [] ↔
      triggerKeyword.toList <:+: msg.toList)
    ∧ handle_message env "hello" userId replyToken = []
    ∧ handle_message env "今日利率?" userId replyToken ≠ [] := by
  have hiff : ∀ m : String, containsKeyword (pyStrip m) = true ↔
      triggerKeyword.toList <:+: m.toList := by
    intro m
    rw [containsKeyword]
    rw [show (pyStrip m).toList = stripChars m.toList from rfl]
    rw [containsAux_correct]
    exact keyword_strip_iff m.toList
  refine ⟨?_, ?_, ?_⟩
  · rw [← hiff msg]
    by_cases hc : containsKeyword (pyStrip msg) = true
    · simp [handle_message, hc]
    · simp [handle_message, hc]
  · have hno : containsKeyword (pyStrip "hello") = false := by decide
    simp [handle_message, hno]
  · have hyes : containsKeyword (pyStrip "今日利率?") = true := by decide
    simp [handle_message, hyes]

end WufangBot
